import Mathlib

/-!
Shallow embedding of the trap/interrupt dispatch layer of `kernel/trap.c`
(an xv6-derived kernel with demand paging and a watchdog).

Modelling conventions:
* C `uint` (32-bit) and `uint64` values are `Nat`, with `% 2^32` / `% 2^64`
  applied exactly where the C arithmetic can wrap (`ticks++`,
  `ticks - watchdog_value`, `p->tf->epc += 4`).
* Hardware registers read at trap entry (`r_sstatus`, `r_scause`, `r_sepc`,
  `r_stval`) are inputs; register writes (`w_stvec`, `w_sepc`, `w_sstatus`,
  `w_sip`) have no further effect on the embedded state and are not recorded,
  except where a claim needs them.
* Calls to external collaborators (`syscall`, `exit`, `yield`, `do_allocate`,
  `plic_claim`, `plic_complete`, `uartintr`, `virtio_disk_intr`, `wakeup`)
  are recorded as events in the order the code performs them; their results,
  where the trap layer consumes one (`plic_claim`, `do_allocate`, `cpuid`),
  are oracle inputs.
* `panic` never returns: a function outcome records the panic message and the
  state at the moment of the halt.
* Spinlock acquire/release and `printf` diagnostics do not affect the embedded
  state; only the error print of the unrecognized-cause paths is recorded (as
  `Event.printErr`) to keep branch shapes visible.
-/

namespace Xv6

/-- Modelled from the spec: the previous-privilege (SPP) bit of the `sstatus`
register, from the `riscv.h` header that is not under `src/` ("a status
register exposing previous-privilege and previous-interrupt-enable bits").
The claims depend only on this bit being a single fixed bit position. -/
def SSTATUS_SPP : Nat := 256

/-- Modelled from the spec: the page size, from the missing `riscv.h` header
("round the faulting address down to the containing page boundary"). -/
def PGSIZE : Nat := 4096

/-- Modelled from the spec: `PGROUNDDOWN`, from the missing `riscv.h` header:
"round the faulting address down to the containing page boundary". -/
def PGROUNDDOWN (a : Nat) : Nat := a / PGSIZE * PGSIZE

-- Modelled from the spec: device interrupt identifiers ("a base identifier
-- plus device index") from the missing `memlayout.h` header.  The claims do
-- not depend on the concrete values, only on zero vs non-zero.
def UART0_IRQ : Nat := 10

def VIRTIO0_IRQ : Nat := 1

def VIRTIO1_IRQ : Nat := 2

/-- `2^32`, the modulus of C `uint` arithmetic (`uint ticks`). -/
def U32 : Nat := 4294967296

/-- `2^64`, the modulus of C `uint64` arithmetic (`p->tf->epc`). -/
def U64 : Nat := 18446744073709551616

/-- C unsigned 32-bit subtraction `a - b` (wraps modulo `2^32`). -/
def usub32 (a b : Nat) : Nat := (a + (U32 - b % U32)) % U32

/-- Collaborator calls made by the trap layer, in program order. -/
inductive Event where
  | callSyscall
  | callHandlePageFault
  | callDevintr
  | doAllocate (addr : Nat) (scause : Nat)
  | exitProc (code : Int)
  | yieldCpu
  | plicClaim
  | uartintr
  | virtioDiskIntr (n : Nat)
  | plicComplete (irq : Nat)
  | wakeupTicks
  | clearSip
  | printErr
deriving Repr, DecidableEq

/-- Supervisor CSR values as read at trap entry. -/
structure SRegs where
  sstatus : Nat
  scause : Nat
  sepc : Nat
  stval : Nat
deriving Repr, DecidableEq

/-- The saved user program counter of a process's trap frame (`p->tf->epc`);
the general registers are saved and restored by trampoline assembly outside
this translation unit. -/
structure TrapFrame where
  epc : Nat
deriving Repr, DecidableEq

/-- The parts of `struct proc` the trap layer reads and writes. -/
structure Proc where
  tf : TrapFrame
  killed : Bool
deriving Repr, DecidableEq

/-- The state read and written by `clockintr`: the global `uint ticks` of
`trap.c` and the watchdog threshold/last-reset values from the missing
`watchdog.h` header (modelled from the spec: "a configured timeout threshold
and a last-reset tick value", tick-sized unsigned values). -/
structure ClockState where
  ticks : Nat
  watchdog_time : Nat
  watchdog_value : Nat
deriving Repr, DecidableEq

/-- Outcome of `clockintr`: either the watchdog `panic` (carrying the state,
unchanged, at the halt) or normal completion with the updated state. -/
inductive ClockResult where
  | panicked (st : ClockState)
  | ok (st : ClockState)
deriving Repr, DecidableEq

/-- `clockintr` (trap.c:216-228).  Acquires `watchdog_lock` then `tickslock`
(locking not embedded), halts if `watchdog_time && ticks - watchdog_value >
watchdog_time`, otherwise does `ticks++` (C `uint`, wraps at `2^32`) and
`wakeup(&ticks)` (recorded by the caller). -/
def clockintr (st : ClockState) : ClockResult :=
  if st.watchdog_time ≠ 0 ∧ usub32 st.ticks st.watchdog_value > st.watchdog_time then
    .panicked st
  else
    .ok { st with ticks := (st.ticks + 1) % U32 }

/-- `clockintr` iterated over `n` successive timekeeping ticks, stopping at
the first watchdog halt. -/
def clockintrN : Nat → ClockState → ClockResult
  | 0, st => .ok st
  | n + 1, st =>
    match clockintr st with
    | .panicked st' => .panicked st'
    | .ok st' => clockintrN n st'

/-- Result of `devintr`: the C return value (0/1/2), the clock state after
any `clockintr` call, the collaborator calls made, and the watchdog panic
message if `clockintr` halted. -/
structure DevOut where
  ret : Nat
  clock : ClockState
  events : List Event
  panicked : Option String
deriving Repr, DecidableEq

/-- `devintr` (trap.c:235-286).  `cpu` is `cpuid()` and `plicIrq` the value
`plic_claim()` would return. -/
def devintr (scause : Nat) (cpu : Nat) (plicIrq : Nat) (st : ClockState) : DevOut :=
  if scause &&& 0x8000000000000000 ≠ 0 ∧ scause &&& 0xff = 9 then
    -- supervisor external interrupt, via PLIC
    let svc : List Event :=
      if plicIrq = UART0_IRQ then [.uartintr]
      else if plicIrq = VIRTIO0_IRQ ∨ plicIrq = VIRTIO1_IRQ then
        [.virtioDiskIntr (plicIrq - VIRTIO0_IRQ)]
      else []
    let comp : List Event := if plicIrq ≠ 0 then [.plicComplete plicIrq] else []
    { ret := 1, clock := st, events := .plicClaim :: (svc ++ comp), panicked := none }
  else if scause = 0x8000000000000001 then
    -- software interrupt from the machine-mode timer
    if cpu = 0 then
      match clockintr st with
      | .panicked st' => { ret := 2, clock := st', events := [], panicked := some "watchdog !!!" }
      | .ok st' =>
        { ret := 2, clock := st', events := [.wakeupTicks, .clearSip], panicked := none }
    else
      { ret := 2, clock := st, events := [.clearSip], panicked := none }
  else
    { ret := 0, clock := st, events := [], panicked := none }

/-- `handle_page_fault` (trap.c:34-72).  `allocRes` is the value
`do_allocate` returns; a negative result marks the process killed and
returns -1 (the specific `ENOVMA`/`ENOMEM`/... code only selects a
diagnostic print).  The `vma_lock` acquire/release bracket the
`do_allocate` call and are not embedded. -/
def handle_page_fault (p : Proc) (scause stval _sepc : Nat) (allocRes : Int) :
    Int × Proc × List Event :=
  let addr := PGROUNDDOWN stval
  let evs : List Event := [.doAllocate addr scause]
  if allocRes < 0 then
    (-1, { p with killed := true }, evs ++ [.printErr])
  else
    (0, p, evs)

/-- The sixteen-entry interrupt-cause description table of `scause_desc`. -/
def intr_desc : List String :=
  ["user software interrupt",
   "supervisor software interrupt",
   "<reserved for future standard use>",
   "<reserved for future standard use>",
   "user timer interrupt",
   "supervisor timer interrupt",
   "<reserved for future standard use>",
   "<reserved for future standard use>",
   "user external interrupt",
   "supervisor external interrupt",
   "<reserved for future standard use>",
   "<reserved for future standard use>",
   "<reserved for future standard use>",
   "<reserved for future standard use>",
   "<reserved for future standard use>",
   "<reserved for future standard use>"]

/-- The sixteen-entry exception-cause description table of `scause_desc`. -/
def nointr_desc : List String :=
  ["instruction address misaligned",
   "instruction access fault",
   "illegal instruction",
   "breakpoint",
   "load address misaligned",
   "load access fault",
   "store/AMO address misaligned",
   "store/AMO access fault",
   "environment call from U-mode",
   "environment call from S-mode",
   "<reserved for future standard use>",
   "<reserved for future standard use>",
   "instruction page fault",
   "load page fault",
   "<reserved for future standard use>",
   "store/AMO page fault"]

/-- `scause_desc` (trap.c:288-367).  `interrupt = stval & 0x8000000000000000`,
`code = stval & ~0x8000000000000000` (the low 63 bits of the 64-bit value). -/
def scause_desc (stval : Nat) : String :=
  let interrupt := stval &&& 0x8000000000000000
  let code := stval &&& 0x7fffffffffffffff
  if interrupt ≠ 0 then
    if code < 16 then intr_desc.getD code "" else "<reserved for platform use>"
  else
    if code < 16 then nointr_desc.getD code ""
    else if code ≤ 23 then "<reserved for future standard use>"
    else if code ≤ 31 then "<reserved for custom use>"
    else if code ≤ 47 then "<reserved for future standard use>"
    else if code ≤ 63 then "<reserved for custom use>"
    else "<reserved for future standard use>"

/-- How `usertrap` ends: a `panic`, process termination via `exit(-1)`, or
the one-way return to user mode through `usertrapret`. -/
inductive UOutcome where
  | panicked (msg : String)
  | exited (code : Int)
  | returned
deriving Repr, DecidableEq

/-- Result of `usertrap`: the outcome, the process state (trap frame and
`killed` flag), the clock state, and the collaborator calls made. -/
structure UTResult where
  outcome : UOutcome
  p : Proc
  clock : ClockState
  events : List Event
deriving Repr, DecidableEq

/-- The tail of `usertrap` (trap.c:132-139): `if (p->killed) exit(-1);`,
`if (which_dev == 2) yield();`, then `usertrapret()`. -/
def usertrapEpilogue (p : Proc) (st : ClockState) (whichDev : Nat)
    (evs : List Event) : UTResult :=
  if p.killed then
    { outcome := .exited (-1), p := p, clock := st, events := evs ++ [.exitProc (-1)] }
  else if whichDev = 2 then
    { outcome := .returned, p := p, clock := st, events := evs ++ [.yieldCpu] }
  else
    { outcome := .returned, p := p, clock := st, events := evs }

/-- The `devintr` branch of `usertrap` (trap.c:121-130): `which_dev =
devintr()`; a zero return prints the unexpected-scause diagnostic and marks
the process killed; a watchdog panic inside `devintr` halts. -/
def usertrapDev (p : Proc) (d : DevOut) : UTResult :=
  match d.panicked with
  | some msg =>
    { outcome := .panicked msg, p := p, clock := d.clock,
      events := .callDevintr :: d.events }
  | none =>
    if d.ret ≠ 0 then
      usertrapEpilogue p d.clock d.ret (.callDevintr :: d.events)
    else
      usertrapEpilogue { p with killed := true } d.clock 0
        (.callDevintr :: (d.events ++ [.printErr]))

/-- `usertrap` (trap.c:78-140).  Inputs: the CSR values at entry, the current
process `p0`, the clock state, and the oracle values `cpu = cpuid()`,
`plicIrq` (what `plic_claim()` returns), `allocRes` (what `do_allocate`
returns) and `syscallKills` (whether the `syscall` collaborator marks the
process killed).  `w_stvec(kernelvec)` and `intr_on()` are register writes
with no effect on the embedded state. -/
def usertrap (r : SRegs) (p0 : Proc) (st : ClockState) (cpu plicIrq : Nat)
    (allocRes : Int) (syscallKills : Bool) : UTResult :=
  if r.sstatus &&& SSTATUS_SPP ≠ 0 then
    { outcome := .panicked "usertrap: not from user mode", p := p0, clock := st,
      events := [] }
  else
    -- save user program counter: p->tf->epc = r_sepc()
    let p1 : Proc := { p0 with tf := { epc := r.sepc } }
    if r.scause = 8 then
      -- system call
      if p1.killed then
        { outcome := .exited (-1), p := p1, clock := st, events := [.exitProc (-1)] }
      else
        let p2 : Proc := { p1 with tf := { epc := (p1.tf.epc + 4) % U64 } }
        let p3 : Proc := if syscallKills then { p2 with killed := true } else p2
        usertrapEpilogue p3 st 0 [.callSyscall]
    else if r.scause = 0xf ∨ r.scause = 0xd then
      let res := handle_page_fault p1 r.scause r.stval r.sepc allocRes
      usertrapEpilogue res.2.1 st 0 (.callHandlePageFault :: res.2.2)
    else if r.scause = 0xc then
      let res := handle_page_fault p1 r.scause r.stval r.sepc allocRes
      usertrapEpilogue res.2.1 st 0 (.callHandlePageFault :: res.2.2)
    else
      usertrapDev p1 (devintr r.scause cpu plicIrq st)

/-- How `kerneltrap` ends: a `panic`, or the return to the interrupted
kernel context (after restoring `sepc`/`sstatus`). -/
inductive KOutcome where
  | panicked (msg : String)
  | done
deriving Repr, DecidableEq

/-- Result of `kerneltrap`. -/
structure KTResult where
  outcome : KOutcome
  clock : ClockState
  events : List Event
deriving Repr, DecidableEq

/-- `kerneltrap` (trap.c:187-214).  `intrEnabled` is `intr_get() != 0`;
`procRunning` is `myproc() != 0 && myproc()->state == RUNNING`; the final
`w_sepc(sepc); w_sstatus(sstatus)` restore is a register write with no
effect on the embedded state. -/
def kerneltrap (r : SRegs) (intrEnabled : Bool) (cpu plicIrq : Nat)
    (procRunning : Bool) (st : ClockState) : KTResult :=
  if r.sstatus &&& SSTATUS_SPP = 0 then
    { outcome := .panicked "kerneltrap: not from supervisor mode", clock := st, events := [] }
  else if intrEnabled then
    { outcome := .panicked "kerneltrap: interrupts enabled", clock := st, events := [] }
  else
    let d := devintr r.scause cpu plicIrq st
    match d.panicked with
    | some msg =>
      { outcome := .panicked msg, clock := d.clock, events := .callDevintr :: d.events }
    | none =>
      if d.ret = 0 then
        { outcome := .panicked "kerneltrap", clock := d.clock,
          events := .callDevintr :: (d.events ++ [.printErr]) }
      else if d.ret = 2 ∧ procRunning then
        { outcome := .done, clock := d.clock,
          events := .callDevintr :: (d.events ++ [.yieldCpu]) }
      else
        { outcome := .done, clock := d.clock, events := .callDevintr :: d.events }

/-! ### Helper lemmas -/

theorem usertrapEpilogue_p (p : Proc) (st : ClockState) (w : Nat) (evs : List Event) :
    (usertrapEpilogue p st w evs).p = p := by
  unfold usertrapEpilogue
  split
  · rfl
  · split <;> rfl

theorem usertrapEpilogue_mem (p : Proc) (st : ClockState) (w : Nat) (evs : List Event)
    (e : Event) (h : e ∈ evs) : e ∈ (usertrapEpilogue p st w evs).events := by
  unfold usertrapEpilogue
  split
  · exact List.mem_append_left _ h
  · split
    · exact List.mem_append_left _ h
    · exact h

theorem usertrapEpilogue_mem_rev (p : Proc) (st : ClockState) (w : Nat) (evs : List Event)
    (e : Event) (h : e ∈ (usertrapEpilogue p st w evs).events) :
    e ∈ evs ∨ e = .exitProc (-1) ∨ e = .yieldCpu := by
  unfold usertrapEpilogue at h
  split at h
  · rcases List.mem_append.1 h with h | h
    · exact .inl h
    · simp only [List.mem_singleton] at h
      exact .inr (.inl h)
  · split at h
    · rcases List.mem_append.1 h with h | h
      · exact .inl h
      · simp only [List.mem_singleton] at h
        exact .inr (.inr h)
    · exact .inl h

/-- The events a `devintr` call can emit: interrupt-side collaborator calls
only (never the syscall, page-fault, exit or yield collaborators). -/
def Event.isDevEvent : Event → Bool
  | .plicClaim | .uartintr | .virtioDiskIntr _ | .plicComplete _
  | .wakeupTicks | .clearSip => true
  | _ => false

theorem devintr_events (scause cpu plicIrq : Nat) (st : ClockState) (e : Event)
    (he : e ∈ (devintr scause cpu plicIrq st).events) :
    e.isDevEvent = true := by
  unfold devintr at he
  repeat' split at he
  all_goals simp_all
  all_goals
    first
      | rfl
      | ((rcases he with rfl | rfl | rfl) <;> rfl)

theorem devintr_panicked_msg (scause cpu plicIrq : Nat) (st : ClockState) :
    (devintr scause cpu plicIrq st).panicked = none ∨
    (devintr scause cpu plicIrq st).panicked = some "watchdog !!!" := by
  unfold devintr
  repeat' split
  all_goals simp

theorem handle_page_fault_tf (p : Proc) (scause stval sepc : Nat) (allocRes : Int) :
    (handle_page_fault p scause stval sepc allocRes).2.1.tf = p.tf := by
  unfold handle_page_fault
  split <;> rfl

theorem usertrapDev_callDevintr (p : Proc) (d : DevOut) :
    Event.callDevintr ∈ (usertrapDev p d).events := by
  unfold usertrapDev
  split
  · exact List.mem_cons_self _ _
  · split <;> exact usertrapEpilogue_mem _ _ _ _ _ (List.mem_cons_self _ _)

theorem usertrapDev_events (p : Proc) (d : DevOut) (e : Event)
    (h : e ∈ (usertrapDev p d).events) :
    e = .callDevintr ∨ e ∈ d.events ∨ e = .printErr ∨ e = .exitProc (-1) ∨ e = .yieldCpu := by
  unfold usertrapDev at h
  split at h
  · rcases List.mem_cons.1 h with h | h
    · exact .inl h
    · exact .inr (.inl h)
  · split at h
    · rcases usertrapEpilogue_mem_rev _ _ _ _ _ h with h | h | h
      · rcases List.mem_cons.1 h with h | h
        · exact .inl h
        · exact .inr (.inl h)
      · exact .inr (.inr (.inr (.inl h)))
      · exact .inr (.inr (.inr (.inr h)))
    · rcases usertrapEpilogue_mem_rev _ _ _ _ _ h with h | h | h
      · rcases List.mem_cons.1 h with h | h
        · exact .inl h
        · rcases List.mem_append.1 h with h | h
          · exact .inr (.inl h)
          · simp only [List.mem_singleton] at h
            exact .inr (.inr (.inl h))
      · exact .inr (.inr (.inr (.inl h)))
      · exact .inr (.inr (.inr (.inr h)))

/-! ### Claim theorems -/

/-- C4: On a timekeeping tick handled by `clockintr`, if the watchdog
threshold (`watchdog_time`) is non-zero and the elapsed ticks since the last
reset (`ticks - watchdog_value`, C unsigned subtraction) strictly exceed the
threshold, the system panics with the tick counter unchanged (the `panicked`
result carries the entry state); if the threshold is zero, no tick event
triggers a watchdog halt — the tick completes normally. -/
theorem C4_watchdog_check (st : ClockState) :
    (st.watchdog_time ≠ 0 → usub32 st.ticks st.watchdog_value > st.watchdog_time →
      clockintr st = .panicked st) ∧
    (st.watchdog_time = 0 →
      clockintr st = .ok { st with ticks := (st.ticks + 1) % U32 }) := by
  constructor
  · intro h1 h2
    unfold clockintr
    rw [if_pos ⟨h1, h2⟩]
  · intro h
    unfold clockintr
    rw [if_neg]
    simp [h]

/-- Witness for C4 at the concrete states `⟨ticks 100, threshold 5, reset 90⟩`
(elapsed 10 > 5: halt, ticks unchanged) and `⟨ticks 7, threshold 0, reset 3⟩`
(threshold zero: no halt, ticks incremented). -/
theorem C4_watchdog_check_witness :
    ((100 : Nat) ≠ 0 → False) = False ∧
    clockintr ⟨100, 5, 90⟩ = .panicked ⟨100, 5, 90⟩ ∧
    clockintr ⟨7, 0, 3⟩ = .ok ⟨8, 0, 3⟩ :=
  ⟨by simp,
   (C4_watchdog_check ⟨100, 5, 90⟩).1 (by decide) (by decide),
   (C4_watchdog_check ⟨7, 0, 3⟩).2 rfl⟩

/-- C7: When `devintr` handles an external interrupt (interrupt bit set and
low cause byte 9), it returns 1; if `plic_claim` returned identifier 0, no
device service routine is invoked and no `plic_complete` is sent; if the
claimed identifier is non-zero, `plic_complete` is sent regardless of
whether the identifier matched a known device. -/
theorem C7_spurious_and_complete (scause cpu plicIrq : Nat) (st : ClockState)
    (hbit : scause &&& 0x8000000000000000 ≠ 0) (hlow : scause &&& 0xff = 9) :
    (devintr scause cpu plicIrq st).ret = 1 ∧
    (plicIrq = 0 →
      Event.uartintr ∉ (devintr scause cpu plicIrq st).events ∧
      (∀ n, Event.virtioDiskIntr n ∉ (devintr scause cpu plicIrq st).events) ∧
      (∀ i, Event.plicComplete i ∉ (devintr scause cpu plicIrq st).events)) ∧
    (plicIrq ≠ 0 → Event.plicComplete plicIrq ∈ (devintr scause cpu plicIrq st).events) := by
  unfold devintr
  rw [if_pos ⟨hbit, hlow⟩]
  refine ⟨rfl, ?_, ?_⟩
  · rintro rfl
    simp [UART0_IRQ, VIRTIO0_IRQ, VIRTIO1_IRQ]
  · intro hi
    simp [hi]

/-- Witness for C7 at the external-interrupt cause `0x8000000000000009`, once
with a spurious claim (identifier 0: `devintr` returns 1 and sends no
completion) and once with identifier 7, which matches no device yet is
completed. -/
theorem C7_spurious_and_complete_witness :
    (devintr 0x8000000000000009 1 0 ⟨0, 0, 0⟩).ret = 1 ∧
    (∀ i, Event.plicComplete i ∉ (devintr 0x8000000000000009 1 0 ⟨0, 0, 0⟩).events) ∧
    Event.plicComplete 7 ∈ (devintr 0x8000000000000009 1 7 ⟨0, 0, 0⟩).events :=
  ⟨(C7_spurious_and_complete 0x8000000000000009 1 0 ⟨0, 0, 0⟩ (by decide) (by decide)).1,
   ((C7_spurious_and_complete 0x8000000000000009 1 0 ⟨0, 0, 0⟩ (by decide) (by decide)).2.1
     rfl).2.2,
   (C7_spurious_and_complete 0x8000000000000009 1 7 ⟨0, 0, 0⟩ (by decide) (by decide)).2.2
     (by decide)⟩

/-- C10: `devintr` recognizes the external-interrupt encoding from the top
(interrupt) bit and the low 8 bits of the cause alone: every cause with the
interrupt bit set and `cause &&& 0xff = 9` — whatever the higher cause-number
bits — takes the external-interrupt path (claiming from the PLIC, leaving the
clock untouched) and returns 1. -/
theorem C10_low_byte_match (scause cpu plicIrq : Nat) (st : ClockState)
    (hbit : scause &&& 0x8000000000000000 ≠ 0) (hlow : scause &&& 0xff = 9) :
    (devintr scause cpu plicIrq st).ret = 1 ∧
    Event.plicClaim ∈ (devintr scause cpu plicIrq st).events ∧
    (devintr scause cpu plicIrq st).clock = st ∧
    (devintr scause cpu plicIrq st).panicked = none := by
  unfold devintr
  rw [if_pos ⟨hbit, hlow⟩]
  exact ⟨rfl, List.mem_cons_self _ _, rfl, rfl⟩

/-- Witness for C10 at cause `0x8000000000000109`: its cause number `0x109`
differs from the fixed external code 9, yet its low byte is 9 and the
interrupt bit is set, so `devintr` takes the external path and returns 1. -/
theorem C10_low_byte_match_witness :
    (0x8000000000000109 : Nat) ≠ 0x8000000000000009 ∧
    (0x8000000000000109 : Nat) &&& 0x8000000000000000 ≠ 0 ∧
    (0x8000000000000109 : Nat) &&& 0xff = 9 ∧
    (devintr 0x8000000000000109 1 0 ⟨0, 0, 0⟩).ret = 1 ∧
    Event.plicClaim ∈ (devintr 0x8000000000000109 1 0 ⟨0, 0, 0⟩).events :=
  ⟨by decide, by decide, by decide,
   (C10_low_byte_match 0x8000000000000109 1 0 ⟨0, 0, 0⟩ (by decide) (by decide)).1,
   (C10_low_byte_match 0x8000000000000109 1 0 ⟨0, 0, 0⟩ (by decide) (by decide)).2.1⟩

/-- C9 counterexample: `0x2000000000000009` has bit 61 set, not the
interrupt bit (bit 63), so `scause_desc` classifies it in the exception
numbering space, where its low 63 bits exceed 63: the lookup yields
"<reserved for future standard use>", not "supervisor external interrupt"
as the claim states. -/
theorem C9_counterexample :
    scause_desc 0x2000000000000009 = "<reserved for future standard use>" ∧
    scause_desc 0x2000000000000009 ≠ "supervisor external interrupt" := by
  constructor
  · rfl
  · decide

/-- C9 (amended): the cause code with the interrupt bit set and cause number
9 is `0x8000000000000009` (not `0x2000000000000009`); `scause_desc` maps it
to "supervisor external interrupt", and maps exception-space cause 40 to
"<reserved for future standard use>". -/
theorem C9_desc_lookup :
    scause_desc 0x8000000000000009 = "supervisor external interrupt" ∧
    scause_desc 40 = "<reserved for future standard use>" :=
  ⟨rfl, rfl⟩

/-- C8 counterexample: `ticks` is a C `uint`, so `ticks++` wraps modulo
`2^32`: at tick counter `2^32 - 1` (watchdog disabled) the non-halting
`clockintr` invocation sets the counter to 0, which is not the old value
plus 1 and is a decrease. -/
theorem C8_counterexample :
    clockintr ⟨U32 - 1, 0, 0⟩ = .ok ⟨0, 0, 0⟩ ∧
    (0 : Nat) ≠ (U32 - 1) + 1 ∧ (0 : Nat) < U32 - 1 := by
  refine ⟨?_, by decide, by decide⟩
  rfl

/-- C8 (amended): every `clockintr` invocation that does not halt on the
watchdog check sets `ticks` to `(ticks + 1) % 2^32`, so after `n`
timekeeping-tick events that all pass the watchdog check the counter equals
`(initial + n) % 2^32` — which equals `initial + n` exactly whenever
`initial + n < 2^32` — and the watchdog configuration is unchanged. -/
theorem C8_tick_counter (n : Nat) :
    ∀ st st' : ClockState, st.ticks < U32 → clockintrN n st = .ok st' →
      st'.ticks = (st.ticks + n) % U32 ∧ st'.ticks < U32 ∧
      st'.watchdog_time = st.watchdog_time ∧
      st'.watchdog_value = st.watchdog_value ∧
      (st.ticks + n < U32 → st'.ticks = st.ticks + n) := by
  induction n with
  | zero =>
    intro st st' hlt h
    simp only [clockintrN] at h
    cases h
    simp only [U32] at hlt ⊢
    refine ⟨by omega, by omega, by trivial, by trivial, by omega⟩
  | succ n ih =>
    intro st st' hlt h
    unfold clockintrN at h
    cases hc : clockintr st with
    | panicked s =>
      rw [hc] at h
      simp at h
    | ok s1 =>
      rw [hc] at h
      change clockintrN n s1 = .ok st' at h
      unfold clockintr at hc
      split at hc
      · cases hc
      · injection hc with h2
        subst h2
        have hlt1 : ((st.ticks + 1) % U32) < U32 := by
          simp only [U32]
          omega
        obtain ⟨e1, e2, e3, e4, _⟩ := ih _ st' hlt1 h
        refine ⟨?_, e2, e3, e4, ?_⟩
        · simp only [U32] at e1 ⊢
          omega
        · intro hb
          simp only [U32] at e1 hb ⊢
          omega

/-- Witness for the amended C8: three successive non-halting ticks from a
zeroed clock state take the counter from 0 to `(0 + 3) % 2^32 = 3`. -/
theorem C8_tick_counter_witness :
    (0 : Nat) < U32 ∧ clockintrN 3 ⟨0, 0, 0⟩ = .ok ⟨3, 0, 0⟩ ∧
    (3 : Nat) = (0 + 3) % U32 :=
  ⟨by decide, by decide,
   (C8_tick_counter 3 ⟨0, 0, 0⟩ ⟨3, 0, 0⟩ (by decide) (by decide)).1⟩

theorem handle_page_fault_doAllocate (p : Proc) (scause stval sepc : Nat) (allocRes : Int) :
    Event.doAllocate (PGROUNDDOWN stval) scause ∈
      (handle_page_fault p scause stval sepc allocRes).2.2 ∧
    ∀ a c, Event.doAllocate a c ∈ (handle_page_fault p scause stval sepc allocRes).2.2 →
      a = PGROUNDDOWN stval ∧ c = scause := by
  unfold handle_page_fault
  split <;> constructor
  · simp
  · intro a c hm
    simp only [List.cons_append, List.nil_append, List.mem_cons, List.not_mem_nil,
      or_false, Event.doAllocate.injEq, reduceCtorEq] at hm
    exact hm
  · simp
  · intro a c hm
    simp only [List.mem_cons, List.not_mem_nil, or_false, Event.doAllocate.injEq] at hm
    exact hm

/-- C5: If a process is already marked killed when its pending syscall trap
(`scause == 8`) is processed by `usertrap`, the process exits with code -1,
the `syscall` collaborator is never invoked, and the saved program counter
is left at the trapping `sepc`, not advanced. -/
theorem C5_killed_before_syscall (r : SRegs) (p0 : Proc) (st : ClockState)
    (cpu plicIrq : Nat) (allocRes : Int) (syscallKills : Bool)
    (hspp : r.sstatus &&& SSTATUS_SPP = 0) (h8 : r.scause = 8)
    (hk : p0.killed = true) :
    (usertrap r p0 st cpu plicIrq allocRes syscallKills).outcome = .exited (-1) ∧
    Event.callSyscall ∉ (usertrap r p0 st cpu plicIrq allocRes syscallKills).events ∧
    (usertrap r p0 st cpu plicIrq allocRes syscallKills).p.tf.epc = r.sepc := by
  simp [usertrap, hspp, h8, hk]

/-- C2: When `usertrap` dispatches a syscall cause (`scause == 8`) for a
process not marked killed, the saved program counter is set to the trapping
`sepc` plus 4 (C `uint64` addition, modulo `2^64` — exactly `sepc + 4` for
every register value with `sepc + 4 < 2^64`) and the `syscall` collaborator
is invoked (in the code the advance precedes the call); when it dispatches
any of the page-fault causes 0xc, 0xd, 0xf, the saved program counter stays
exactly the trapping `sepc`. -/
theorem C2_epc_advance (r : SRegs) (p0 : Proc) (st : ClockState)
    (cpu plicIrq : Nat) (allocRes : Int) (syscallKills : Bool)
    (hspp : r.sstatus &&& SSTATUS_SPP = 0) :
    (r.scause = 8 → p0.killed = false →
      (usertrap r p0 st cpu plicIrq allocRes syscallKills).p.tf.epc = (r.sepc + 4) % U64 ∧
      (r.sepc + 4 < U64 →
        (usertrap r p0 st cpu plicIrq allocRes syscallKills).p.tf.epc = r.sepc + 4) ∧
      Event.callSyscall ∈ (usertrap r p0 st cpu plicIrq allocRes syscallKills).events) ∧
    ((r.scause = 0xc ∨ r.scause = 0xd ∨ r.scause = 0xf) →
      (usertrap r p0 st cpu plicIrq allocRes syscallKills).p.tf.epc = r.sepc) := by
  constructor
  · intro h8 hk
    have hu : usertrap r p0 st cpu plicIrq allocRes syscallKills =
        usertrapEpilogue
          (if syscallKills then
            { tf := { epc := (r.sepc + 4) % U64 }, killed := true }
          else { tf := { epc := (r.sepc + 4) % U64 }, killed := false })
          st 0 [.callSyscall] := by
      simp [usertrap, hspp, h8, hk]
    rw [hu, usertrapEpilogue_p]
    refine ⟨?_, ?_, usertrapEpilogue_mem _ _ _ _ _ (List.mem_singleton.2 rfl)⟩
    · cases syscallKills <;> simp
    · intro hb
      cases syscallKills <;> simp [Nat.mod_eq_of_lt hb]
  · intro hpf
    have h8 : r.scause ≠ 8 := by
      rcases hpf with h | h | h <;> rw [h] <;> decide
    rcases hpf with h | h | h
    · simp [usertrap, hspp, h, usertrapEpilogue_p, handle_page_fault_tf]
    · simp [usertrap, hspp, h, usertrapEpilogue_p, handle_page_fault_tf]
    · simp [usertrap, hspp, h, usertrapEpilogue_p, handle_page_fault_tf]

/-- C3: For each page-fault cause (0xc, 0xd, 0xf), `usertrap` reaches
`handle_page_fault`, whose single `do_allocate` call receives the faulting
address rounded down to the containing page boundary — `PGROUNDDOWN stval`,
the multiple of 4096 with `PGROUNDDOWN stval ≤ stval < PGROUNDDOWN stval +
4096` — and never the unrounded address (every `do_allocate` event carries
the rounded address). -/
theorem C3_fault_address_rounded (r : SRegs) (p0 : Proc) (st : ClockState)
    (cpu plicIrq : Nat) (allocRes : Int) (syscallKills : Bool)
    (hspp : r.sstatus &&& SSTATUS_SPP = 0)
    (hpf : r.scause = 0xc ∨ r.scause = 0xd ∨ r.scause = 0xf) :
    Event.doAllocate (PGROUNDDOWN r.stval) r.scause ∈
      (usertrap r p0 st cpu plicIrq allocRes syscallKills).events ∧
    (∀ a c, Event.doAllocate a c ∈
        (usertrap r p0 st cpu plicIrq allocRes syscallKills).events →
      a = PGROUNDDOWN r.stval ∧ c = r.scause) ∧
    PGROUNDDOWN r.stval % PGSIZE = 0 ∧ PGROUNDDOWN r.stval ≤ r.stval ∧
    r.stval < PGROUNDDOWN r.stval + PGSIZE := by
  have harith : PGROUNDDOWN r.stval % PGSIZE = 0 ∧ PGROUNDDOWN r.stval ≤ r.stval ∧
      r.stval < PGROUNDDOWN r.stval + PGSIZE := by
    unfold PGROUNDDOWN PGSIZE
    omega
  have key : ∀ hc : r.scause = 0xc ∨ r.scause = 0xd ∨ r.scause = 0xf,
      usertrap r p0 st cpu plicIrq allocRes syscallKills =
        usertrapEpilogue
          (handle_page_fault { p0 with tf := { epc := r.sepc } } r.scause r.stval r.sepc
            allocRes).2.1 st 0
          (.callHandlePageFault ::
            (handle_page_fault { p0 with tf := { epc := r.sepc } } r.scause r.stval r.sepc
              allocRes).2.2) := by
    intro hc
    have h8 : r.scause ≠ 8 := by
      rcases hc with h | h | h <;> rw [h] <;> decide
    rcases hc with h | h | h <;>
      simp [usertrap, hspp, h8, h]
  rw [key hpf]
  refine ⟨?_, ?_, harith⟩
  · exact usertrapEpilogue_mem _ _ _ _ _
      (List.mem_cons_of_mem _ (handle_page_fault_doAllocate _ _ _ _ _).1)
  · intro a c hm
    rcases usertrapEpilogue_mem_rev _ _ _ _ _ hm with hm | hm | hm
    · rcases List.mem_cons.1 hm with hm | hm
      · cases hm
      · exact (handle_page_fault_doAllocate _ _ _ _ _).2 a c hm
    · cases hm
    · cases hm

/-- C1: For every cause code with the interrupt (top) bit set, `usertrap`
(entered with its SPP precondition satisfied) never invokes
`handle_page_fault`, never calls `do_allocate`, and never invokes the
`syscall` collaborator: such causes are routed to `devintr`. -/
theorem C1_interrupt_routing (r : SRegs) (p0 : Proc) (st : ClockState)
    (cpu plicIrq : Nat) (allocRes : Int) (syscallKills : Bool)
    (hspp : r.sstatus &&& SSTATUS_SPP = 0)
    (hbit : r.scause &&& 0x8000000000000000 ≠ 0) :
    Event.callSyscall ∉ (usertrap r p0 st cpu plicIrq allocRes syscallKills).events ∧
    Event.callHandlePageFault ∉
      (usertrap r p0 st cpu plicIrq allocRes syscallKills).events ∧
    (∀ a c, Event.doAllocate a c ∉
      (usertrap r p0 st cpu plicIrq allocRes syscallKills).events) ∧
    Event.callDevintr ∈ (usertrap r p0 st cpu plicIrq allocRes syscallKills).events := by
  have h8 : r.scause ≠ 8 := by
    intro h
    rw [h] at hbit
    exact hbit (by decide)
  have hf : r.scause ≠ 0xf := by
    intro h
    rw [h] at hbit
    exact hbit (by decide)
  have hd : r.scause ≠ 0xd := by
    intro h
    rw [h] at hbit
    exact hbit (by decide)
  have hc : r.scause ≠ 0xc := by
    intro h
    rw [h] at hbit
    exact hbit (by decide)
  have hu : usertrap r p0 st cpu plicIrq allocRes syscallKills =
      usertrapDev { p0 with tf := { epc := r.sepc } }
        (devintr r.scause cpu plicIrq st) := by
    simp [usertrap, hspp, h8, hf, hd, hc]
  rw [hu]
  refine ⟨?_, ?_, ?_, usertrapDev_callDevintr _ _⟩
  · intro hm
    rcases usertrapDev_events _ _ _ hm with h | h | h | h | h
    · cases h
    · exact absurd (devintr_events _ _ _ _ _ h) (by decide)
    · cases h
    · cases h
    · cases h
  · intro hm
    rcases usertrapDev_events _ _ _ hm with h | h | h | h | h
    · cases h
    · exact absurd (devintr_events _ _ _ _ _ h) (by decide)
    · cases h
    · cases h
    · cases h
  · intro a c hm
    rcases usertrapDev_events _ _ _ hm with h | h | h | h | h
    · cases h
    · exact absurd (devintr_events _ _ _ _ _ h) (by simp [Event.isDevEvent])
    · cases h
    · cases h
    · cases h

/-- C6: `kerneltrap` halts before any cause classification (no `devintr`
call, empty event trace) whenever the status register reports previous
privilege "user" (SPP bit clear) or interrupts enabled at entry; under the
precondition (SPP set, interrupts disabled) neither of those two halt
branches is reachable — any panic is the unrecognized-cause or watchdog
one — and `devintr` is invoked. -/
theorem C6_kerneltrap_precondition (r : SRegs) (intrEnabled : Bool)
    (cpu plicIrq : Nat) (procRunning : Bool) (st : ClockState) :
    ((r.sstatus &&& SSTATUS_SPP = 0 ∨ intrEnabled = true) →
      ((kerneltrap r intrEnabled cpu plicIrq procRunning st).outcome =
          .panicked "kerneltrap: not from supervisor mode" ∨
       (kerneltrap r intrEnabled cpu plicIrq procRunning st).outcome =
          .panicked "kerneltrap: interrupts enabled") ∧
      (kerneltrap r intrEnabled cpu plicIrq procRunning st).events = []) ∧
    (r.sstatus &&& SSTATUS_SPP ≠ 0 → intrEnabled = false →
      (kerneltrap r intrEnabled cpu plicIrq procRunning st).outcome ≠
        .panicked "kerneltrap: not from supervisor mode" ∧
      (kerneltrap r intrEnabled cpu plicIrq procRunning st).outcome ≠
        .panicked "kerneltrap: interrupts enabled" ∧
      Event.callDevintr ∈ (kerneltrap r intrEnabled cpu plicIrq procRunning st).events) := by
  constructor
  · intro h
    by_cases hspp : r.sstatus &&& SSTATUS_SPP = 0
    · simp [kerneltrap, hspp]
    · have hie : intrEnabled = true := by tauto
      simp [kerneltrap, hspp, hie]
  · intro hspp hie
    rcases devintr_panicked_msg r.scause cpu plicIrq st with hp | hp
    · by_cases hr0 : (devintr r.scause cpu plicIrq st).ret = 0
      · simp [kerneltrap, hspp, hie, hp, hr0]
      · by_cases hr2 : (devintr r.scause cpu plicIrq st).ret = 2 ∧ procRunning = true
        · simp [kerneltrap, hspp, hie, hp, hr0, hr2]
        · simp [kerneltrap, hspp, hie, hp, hr0, hr2]
    · simp [kerneltrap, hspp, hie, hp]

/-- Witness for C5 at `scause = 8`, `sepc = 55`, process already killed: it
exits with -1, never calls `syscall`, and the saved program counter stays
55. -/
theorem C5_killed_before_syscall_witness :
    (usertrap ⟨0, 8, 55, 0⟩ ⟨⟨99⟩, true⟩ ⟨0, 0, 0⟩ 0 0 0 false).outcome =
      .exited (-1) ∧
    Event.callSyscall ∉ (usertrap ⟨0, 8, 55, 0⟩ ⟨⟨99⟩, true⟩ ⟨0, 0, 0⟩ 0 0 0 false).events ∧
    (usertrap ⟨0, 8, 55, 0⟩ ⟨⟨99⟩, true⟩ ⟨0, 0, 0⟩ 0 0 0 false).p.tf.epc = 55 :=
  C5_killed_before_syscall ⟨0, 8, 55, 0⟩ ⟨⟨99⟩, true⟩ ⟨0, 0, 0⟩ 0 0 0 false
    (by decide) rfl rfl

/-- Witness for C2: a syscall trap at `sepc = 100` leaves the saved program
counter at 104 and calls `syscall`; a load page fault at `sepc = 100` leaves
it at 100. -/
theorem C2_epc_advance_witness :
    (usertrap ⟨0, 8, 100, 0⟩ ⟨⟨0⟩, false⟩ ⟨0, 0, 0⟩ 0 0 0 false).p.tf.epc = 100 + 4 ∧
    Event.callSyscall ∈ (usertrap ⟨0, 8, 100, 0⟩ ⟨⟨0⟩, false⟩ ⟨0, 0, 0⟩ 0 0 0 false).events ∧
    (usertrap ⟨0, 0xd, 100, 0x2345⟩ ⟨⟨0⟩, false⟩ ⟨0, 0, 0⟩ 0 0 0 false).p.tf.epc = 100 :=
  ⟨((C2_epc_advance ⟨0, 8, 100, 0⟩ ⟨⟨0⟩, false⟩ ⟨0, 0, 0⟩ 0 0 0 false
      (by decide)).1 rfl rfl).2.1 (by decide),
   ((C2_epc_advance ⟨0, 8, 100, 0⟩ ⟨⟨0⟩, false⟩ ⟨0, 0, 0⟩ 0 0 0 false
      (by decide)).1 rfl rfl).2.2,
   (C2_epc_advance ⟨0, 0xd, 100, 0x2345⟩ ⟨⟨0⟩, false⟩ ⟨0, 0, 0⟩ 0 0 0 false
      (by decide)).2 (.inr (.inl rfl))⟩

/-- Witness for C3: a load page fault at `stval = 0x2345` calls `do_allocate`
with the page base `0x2000`, not with `0x2345`. -/
theorem C3_fault_address_rounded_witness :
    Event.doAllocate 0x2000 0xd ∈
      (usertrap ⟨0, 0xd, 7, 0x2345⟩ ⟨⟨0⟩, false⟩ ⟨0, 0, 0⟩ 0 0 0 false).events ∧
    (0x2000 : Nat) = PGROUNDDOWN 0x2345 ∧ (0x2000 : Nat) ≠ 0x2345 ∧
    Event.doAllocate 0x2345 0xd ∉
      (usertrap ⟨0, 0xd, 7, 0x2345⟩ ⟨⟨0⟩, false⟩ ⟨0, 0, 0⟩ 0 0 0 false).events :=
  ⟨(C3_fault_address_rounded ⟨0, 0xd, 7, 0x2345⟩ ⟨⟨0⟩, false⟩ ⟨0, 0, 0⟩ 0 0 0 false
      (by decide) (.inr (.inl rfl))).1,
   by decide, by decide,
   fun hm =>
     absurd
       ((C3_fault_address_rounded ⟨0, 0xd, 7, 0x2345⟩ ⟨⟨0⟩, false⟩ ⟨0, 0, 0⟩ 0 0 0 false
           (by decide) (.inr (.inl rfl))).2.1 0x2345 0xd hm).1
       (by decide)⟩

/-- Witness for C1 at the timer-interrupt cause `0x8000000000000001` (top bit
set): `usertrap` calls `devintr` and neither `syscall` nor the page-fault
path. -/
theorem C1_interrupt_routing_witness :
    Event.callSyscall ∉
      (usertrap ⟨0, 0x8000000000000001, 0, 0⟩ ⟨⟨0⟩, false⟩ ⟨0, 0, 0⟩ 0 0 0 false).events ∧
    Event.callHandlePageFault ∉
      (usertrap ⟨0, 0x8000000000000001, 0, 0⟩ ⟨⟨0⟩, false⟩ ⟨0, 0, 0⟩ 0 0 0 false).events ∧
    Event.callDevintr ∈
      (usertrap ⟨0, 0x8000000000000001, 0, 0⟩ ⟨⟨0⟩, false⟩ ⟨0, 0, 0⟩ 0 0 0 false).events :=
  ⟨(C1_interrupt_routing ⟨0, 0x8000000000000001, 0, 0⟩ ⟨⟨0⟩, false⟩ ⟨0, 0, 0⟩ 0 0 0 false
      (by decide) (by decide)).1,
   (C1_interrupt_routing ⟨0, 0x8000000000000001, 0, 0⟩ ⟨⟨0⟩, false⟩ ⟨0, 0, 0⟩ 0 0 0 false
      (by decide) (by decide)).2.1,
   (C1_interrupt_routing ⟨0, 0x8000000000000001, 0, 0⟩ ⟨⟨0⟩, false⟩ ⟨0, 0, 0⟩ 0 0 0 false
      (by decide) (by decide)).2.2.2⟩

/-- Witness for C6: with SPP clear `kerneltrap` halts with an empty event
trace; with SPP set and interrupts disabled at a timer cause, it does not
hit either precondition halt and calls `devintr`. -/
theorem C6_kerneltrap_precondition_witness :
    (kerneltrap ⟨0, 5, 0, 0⟩ false 0 0 true ⟨9, 0, 0⟩).events = [] ∧
    ((kerneltrap ⟨0, 5, 0, 0⟩ false 0 0 true ⟨9, 0, 0⟩).outcome =
        .panicked "kerneltrap: not from supervisor mode" ∨
     (kerneltrap ⟨0, 5, 0, 0⟩ false 0 0 true ⟨9, 0, 0⟩).outcome =
        .panicked "kerneltrap: interrupts enabled") ∧
    (kerneltrap ⟨256, 0x8000000000000001, 0, 0⟩ false 0 0 true ⟨9, 0, 0⟩).outcome ≠
      .panicked "kerneltrap: not from supervisor mode" ∧
    Event.callDevintr ∈
      (kerneltrap ⟨256, 0x8000000000000001, 0, 0⟩ false 0 0 true ⟨9, 0, 0⟩).events :=
  ⟨((C6_kerneltrap_precondition ⟨0, 5, 0, 0⟩ false 0 0 true ⟨9, 0, 0⟩).1
      (.inl (by decide))).2,
   ((C6_kerneltrap_precondition ⟨0, 5, 0, 0⟩ false 0 0 true ⟨9, 0, 0⟩).1
      (.inl (by decide))).1,
   ((C6_kerneltrap_precondition ⟨256, 0x8000000000000001, 0, 0⟩ false 0 0 true
      ⟨9, 0, 0⟩).2 (by decide) rfl).1,
   ((C6_kerneltrap_precondition ⟨256, 0x8000000000000001, 0, 0⟩ false 0 0 true
      ⟨9, 0, 0⟩).2 (by decide) rfl).2.2⟩

end Xv6
